import Mathlib

/-!
# Verification of the Code Jam qualifier test suite

Shallow embedding of the qualifier test-suite repository:

* `test_qualifier.py` — the oracle: fixture tables of the two requirement
  tiers (`Part001_BasicRequirements`, `Part002_AdvancedRequirements`) and
  the per-fixture comparison logic (`_run_test_cases`, `test_003`).
* `testsuite/result.py` — `SectionResults`, `QualifierTestResult.addSubTest`
  and `QualifierTestResult.stopTest`: accumulation of pass/fail counts.
* `testsuite/runner.py` — `write_footer`: the per-section PASS/FAIL verdict.
* `testsuite/testcase.py` — `QualifierTestCase.setUpClass` and
  `load_testsuite`: module selection and suite-order construction.

The candidate parser `parse_iso8601` itself is not part of the repository
(only its tests are), so it is modelled from the spec's grammar and
calendar-validation sections.
-/

/-- The civil date-time value carried by a successfully parsed string:
the six fields of a (naive) `datetime.datetime` as used by the fixture
tables; hour/minute/second default to 0 when a fixture omits them. -/
structure CivilDateTime where
  year : Nat
  month : Nat
  day : Nat
  hour : Nat := 0
  minute : Nat := 0
  second : Nat := 0
deriving DecidableEq, Repr

/-- Modelled from the spec: the Gregorian leap-year rule of §4.2 — a year
is a leap year iff divisible by 4 and (not divisible by 100 or divisible
by 400). -/
def isLeapYear (y : Nat) : Bool :=
  y % 4 == 0 && (y % 100 != 0 || y % 400 == 0)

/-- Modelled from the spec: days in a month (§4.2) — 31 for
Jan/Mar/May/Jul/Aug/Oct/Dec, 30 for Apr/Jun/Sep/Nov, 28/29 for February
depending on leap-year status. -/
def daysInMonth (y m : Nat) : Nat :=
  if m == 2 then (if isLeapYear y then 29 else 28)
  else if m == 4 || m == 6 || m == 9 || m == 11 then 30
  else 31

/-- Modelled from the spec: calendar validity of the date fields (§4.2):
year 1–9999, month 1–12, day 1–(days in that month for that year). -/
def validDate (y m d : Nat) : Bool :=
  1 ≤ y && y ≤ 9999 && 1 ≤ m && m ≤ 12 && 1 ≤ d && d ≤ daysInMonth y m

/-- Numeric value of two decimal digit characters, rejecting non-digits
(fixed two-character field of the grammar). -/
def num2 (a b : Char) : Option Nat :=
  if a.isDigit && b.isDigit then
    some ((a.toNat - 48) * 10 + (b.toNat - 48))
  else none

/-- Numeric value of four decimal digit characters, rejecting non-digits
(the fixed four-character YYYY field of the grammar). -/
def num4 (a b c d : Char) : Option Nat :=
  if a.isDigit && b.isDigit && c.isDigit && d.isDigit then
    some ((a.toNat - 48) * 1000 + (b.toNat - 48) * 100 +
          (c.toNat - 48) * 10 + (d.toNat - 48))
  else none

/-- Modelled from the spec: the DATE production of §4.1 —
exactly `YYYY "-" MM "-" DD`, fixed widths, literal dashes, nothing else. -/
def parseDatePart : List Char → Option (Nat × Nat × Nat)
  | [y1, y2, y3, y4, '-', m1, m2, '-', d1, d2] => do
    let y ← num4 y1 y2 y3 y4
    let m ← num2 m1 m2
    let d ← num2 d1 d2
    return (y, m, d)
  | _ => none

/-- Modelled from the spec: the TIME production of §4.1 —
`HH [":" MM [":" SS]]`, fixed widths, literal colons; hour-only,
hour+minute, or hour+minute+second, with omitted fields defaulting to 0. -/
def parseTimePart : List Char → Option (Nat × Nat × Nat)
  | [h1, h2] => do
    let h ← num2 h1 h2
    return (h, 0, 0)
  | [h1, h2, ':', m1, m2] => do
    let h ← num2 h1 h2
    let m ← num2 m1 m2
    return (h, m, 0)
  | [h1, h2, ':', m1, m2, ':', s1, s2] => do
    let h ← num2 h1 h2
    let m ← num2 m1 m2
    let s ← num2 s1 s2
    return (h, m, s)
  | _ => none

/-- Split a character list at the first occurrence of a separator,
returning the parts before and after it; `none` when it never occurs. -/
def splitFirst (sep : Char) : List Char → Option (List Char × List Char)
  | [] => none
  | c :: cs =>
    if c = sep then some ([], cs)
    else match splitFirst sep cs with
      | some (l, r) => some (c :: l, r)
      | none => none

/-- Modelled from the spec: the full parser contract
`parse(input) -> Success(CivilDateTime) | Rejected` of §4.1–§4.3.
The input is either `DATE` or `DATE "T" TIME`; after lexical acceptance
the fields must pass calendar validation (§4.2) with hour 0–23,
minute 0–59, second 0–59 (no leap second). `none` is the `Rejected`
outcome. -/
def parse_iso8601 (s : String) : Option CivilDateTime :=
  let cs := s.toList
  match splitFirst 'T' cs with
  | none => do
    let (y, m, d) ← parseDatePart cs
    if validDate y m d then return ⟨y, m, d, 0, 0, 0⟩ else none
  | some (datePart, timePart) => do
    let (y, m, d) ← parseDatePart datePart
    let (hh, mm, ss) ← parseTimePart timePart
    if validDate y m d && hh ≤ 23 && mm ≤ 59 && ss ≤ 59 then
      return ⟨y, m, d, hh, mm, ss⟩
    else none

/-- The acceptance fixture table of
`Part001_BasicRequirements.test_001_accepts_valid_date_only_strings`
(test_qualifier.py lines 36–57), in declaration order. -/
def part001DateOnlyFixtures : List (String × CivilDateTime) :=
  [("1583-01-01", ⟨1583, 1, 1, 0, 0, 0⟩),
   ("2000-02-29", ⟨2000, 2, 29, 0, 0, 0⟩),
   ("2020-01-10", ⟨2020, 1, 10, 0, 0, 0⟩),
   ("9999-12-31", ⟨9999, 12, 31, 0, 0, 0⟩),
   ("2020-02-29", ⟨2020, 2, 29, 0, 0, 0⟩)]

/-- The acceptance fixture table of
`Part001_BasicRequirements.test_002_accepts_valid_datetime_strings`
(test_qualifier.py lines 63–121), in declaration order. -/
def part001DatetimeFixtures : List (String × CivilDateTime) :=
  [("2019-12-18T21:10:48", ⟨2019, 12, 18, 21, 10, 48⟩),
   ("2028-02-29T00:00:00", ⟨2028, 2, 29, 0, 0, 0⟩),
   ("2399-08-31T23:59:59", ⟨2399, 8, 31, 23, 59, 59⟩),
   ("1956-01-31T08:17", ⟨1956, 1, 31, 8, 17, 0⟩),
   ("1910-06-22T11:11", ⟨1910, 6, 22, 11, 11, 0⟩),
   ("1905-12-22T23:59", ⟨1905, 12, 22, 23, 59, 0⟩),
   ("1912-06-23T00", ⟨1912, 6, 23, 0, 0, 0⟩),
   ("1791-12-26T23", ⟨1791, 12, 26, 23, 0, 0⟩),
   ("1596-03-31T12", ⟨1596, 3, 31, 12, 0, 0⟩)]

/-- The rejection fixture table of
`Part001_BasicRequirements.test_003_rejects_invalid_datetime_stings`
(test_qualifier.py lines 127–144), in declaration order. -/
def rejectionFixtures : List String :=
  ["2001-02-28",
   "1989-13-01",
   "1990-01-32",
   "2345-2-10",
   "1788-12-1",
   "2012/10/02",
   "1999:10:02",
   "2012 10 02",
   "17-12-2019",
   "90-03-14",
   "2019-1012",
   "201910-12"]

/-- The acceptance fixture table of
`Part002_AdvancedRequirements.test_001_accepts_valid_date_only_strings`
(test_qualifier.py lines 179–200), in declaration order. -/
def part002DateOnlyFixtures : List (String × CivilDateTime) :=
  [("1583-01-01", ⟨1583, 1, 1, 0, 0, 0⟩),
   ("2000-02-29", ⟨2000, 2, 29, 0, 0, 0⟩),
   ("2020-01-10", ⟨2020, 1, 10, 0, 0, 0⟩),
   ("9999-12-31", ⟨9999, 12, 31, 0, 0, 0⟩),
   ("2020-02-29", ⟨2020, 2, 29, 0, 0, 0⟩)]

/-- A Python value as the oracle can observe it: a `datetime.datetime`
(six fields plus an optional `tzinfo` offset), or any other object. -/
inductive PyValue where
  | datetime (dt : CivilDateTime) (tz : Option Int)
  | other
deriving DecidableEq, Repr

/-- The observable result of calling the candidate's `parse_iso8601` on one
input: the call returns a value, or it raises — `raises true` is a
`ValueError`, `raises false` any other exception type. -/
inductive CallResult where
  | returns (v : PyValue)
  | raises (isValueError : Bool)
deriving DecidableEq, Repr

/-- The oracle's acceptance check, from
`Part001_BasicRequirements._run_test_cases` (test_qualifier.py lines
23–32): inside `subTest`, the call's result must survive
`assertIsInstance(actual, datetime.datetime)`, then
`assertEqual(expected, actual)` where `expected` is always naive — a
naive Python datetime equals another datetime iff that one is naive too
and field-for-field equal — then `assertIsNone(actual.tzinfo)`.
Any exception escaping the body (including the parser's own
`ValueError`) is caught by `subTest` and recorded as the failure. -/
def acceptancePasses (expected : CivilDateTime) (r : CallResult) : Bool :=
  match r with
  | .returns (.datetime dt none) => dt == expected
  | .returns (.datetime _ (some _)) => false
  | .returns .other => false
  | .raises _ => false

/-- The oracle's rejection check, from
`Part001_BasicRequirements.test_003_rejects_invalid_datetime_stings`
(test_qualifier.py lines 146–149): inside `subTest`,
`assertRaises(ValueError)` around the call — it passes iff the call
raises a `ValueError`; returning any value makes `assertRaises` fail,
and any other exception type propagates through it, so `subTest`
records a failure in both cases. -/
def rejectionPasses (r : CallResult) : Bool :=
  match r with
  | .raises true => true
  | .raises false => false
  | .returns _ => false

/-- The claim's notion of "signals rejection": any host-language
mechanism for "this is not a valid value" — raising any exception, or
returning an error result / sentinel that is not a datetime value. -/
def signalsRejection (r : CallResult) : Bool :=
  match r with
  | .raises _ => true
  | .returns .other => true
  | .returns (.datetime _ _) => false

/-- One iteration of the `_run_test_cases` loop: evaluate the parser on
the fixture's input and judge the outcome of the `subTest` block;
`subTest` isolates the iteration, so an exception inside it never
escapes the loop. -/
def evalAcceptanceFixture (parser : String → CallResult)
    (fx : String × CivilDateTime) : Bool :=
  acceptancePasses fx.2 (parser fx.1)

/-- The `_run_test_cases` loop (test_qualifier.py lines 23–32): each
fixture is probed inside its own `subTest` block, in tuple order, and
every iteration runs regardless of the earlier outcomes. -/
def runTestCases (parser : String → CallResult)
    (fxs : List (String × CivilDateTime)) : List Bool :=
  fxs.map (evalAcceptanceFixture parser)

/-- The `test_003` rejection loop (test_qualifier.py lines 146–149):
each invalid string is probed inside its own `subTest` block, in tuple
order. -/
def runRejectionCases (parser : String → CallResult)
    (inputs : List String) : List Bool :=
  inputs.map (fun s => rejectionPasses (parser s))

/-- `SectionResults` (testsuite/result.py lines 90–108): the pass/fail
counters held per test-class section (and, between `startTest` and
`stopTest`, per test method for its sub-tests). -/
structure SectionResults where
  passed : Nat := 0
  failed : Nat := 0
deriving DecidableEq, Repr

/-- `SectionResults.total`: the total number of outcomes recorded. -/
def SectionResults.total (s : SectionResults) : Nat :=
  s.passed + s.failed

/-- `SectionResults.__iter__`: iterating a `SectionResults` yields the
triple `(passed, failed, total)`. -/
def SectionResults.iter (s : SectionResults) : Nat × Nat × Nat :=
  (s.passed, s.failed, s.total)

/-- The payload of a recorded sub-test failure (the exception info
tuple); its contents never influence the counting logic. -/
structure TestOutcome where
  info : Nat
deriving DecidableEq, Repr

/-- `QualifierTestResult.addSubTest` (testsuite/result.py lines
170–183): a `some` outcome (an error) increments `failed` and appends
the outcome to `subtest_outcomes`; a `none` outcome increments
`passed`. -/
def addSubTest (outcome : Option TestOutcome) (results : SectionResults)
    (outcomes : List TestOutcome) : SectionResults × List TestOutcome :=
  match outcome with
  | some e => ({ results with failed := results.failed + 1 }, outcomes ++ [e])
  | none => ({ results with passed := results.passed + 1 }, outcomes)

/-- `QualifierTestResult.stopTest` (testsuite/result.py lines 151–161):
a test method is counted as passed in its section iff its
`subtest_outcomes` list stayed empty, otherwise as failed. -/
def stopTest (subtestOutcomes : List TestOutcome)
    (section_ : SectionResults) : SectionResults :=
  if subtestOutcomes.isEmpty then
    { section_ with passed := section_.passed + 1 }
  else
    { section_ with failed := section_.failed + 1 }

/-- Running one test method through the result object: `startTest`
resets `subtest_results`/`subtest_outcomes`, then `addSubTest` is fed
one outcome per fixture, in order. -/
def runMethod (outcomes : List (Option TestOutcome)) :
    SectionResults × List TestOutcome :=
  outcomes.foldl (fun acc o => addSubTest o acc.1 acc.2) (⟨0, 0⟩, [])

/-- Running one section (test class) through the result object: each
method contributes the fixture outcomes of its sub-tests, and
`stopTest` folds the per-method verdicts into the section counters
(`switch_testclass` starts the section at zero). -/
def runSection (methods : List (List (Option TestOutcome))) : SectionResults :=
  methods.foldl (fun g m => stopTest (runMethod m).2 g) ⟨0, 0⟩

/-- The per-section verdict of `QualifierTestRunner.write_footer`
(testsuite/runner.py lines 93–111): `"PASS" if passed == total else
"FAIL"`. -/
def footerPasses (s : SectionResults) : Bool :=
  s.passed == s.total

/-- Lexicographic comparison of character lists by code point, the order
Python's `sorted` uses on strings. -/
def charListLe : List Char → List Char → Bool
  | [], _ => true
  | _ :: _, [] => false
  | a :: as, b :: bs =>
    if a.val < b.val then true
    else if b.val < a.val then false
    else charListLe as bs

/-- String comparison by code point, as Python's `sorted` orders names. -/
def strLe (a b : String) : Bool :=
  charListLe a.toList b.toList

/-- Insert a name into an already sorted list of names. -/
def insertSorted (x : String) : List String → List String
  | [] => [x]
  | y :: ys => if strLe x y then x :: y :: ys else y :: insertSorted x ys

/-- The order in which Python's `dir` reports an object's attribute
names: sorted alphabetically (by code point), whatever the declaration
order was. -/
def dirOrder : List String → List String
  | [] => []
  | x :: xs => insertSorted x (dirOrder xs)

/-- `unittest.TestLoader`'s test-method predicate: a name is a test
method iff it starts with the prefix `test`. -/
def isTestMethod (n : String) : Bool :=
  n.toList.take 4 == "test".toList

/-- The attribute names the repository defines on
`Part001_BasicRequirements` (test_qualifier.py lines 17–125), in
declaration order; the attributes inherited from `unittest.TestCase` and
`QualifierTestCase` add no name starting with `test`. -/
def part001Attrs : List String :=
  ["setUpClass", "_run_test_cases",
   "test_001_accepts_valid_date_only_strings",
   "test_002_accepts_valid_datetime_strings",
   "test_003_rejects_invalid_datetime_stings"]

/-- The attribute names the repository defines on
`Part002_AdvancedRequirements` (test_qualifier.py lines 155–202), in
declaration order. -/
def part002Attrs : List String :=
  ["module_to_test", "setUpClass", "_run_test_cases",
   "test_001_accepts_valid_date_only_strings"]

/-- The names bound at module level in `test_qualifier.py`, in binding
order: the five imported modules, the imported `QualifierTestCase`, the
`TestCase` namedtuple and the two test classes. -/
def testModuleAttrs : List String :=
  ["collections", "datetime", "importlib", "unittest", "typing",
   "QualifierTestCase", "TestCase",
   "Part001_BasicRequirements", "Part002_AdvancedRequirements"]

/-- Which module-level names of `test_qualifier.py` denote
`unittest.TestCase` subclasses (the `load_testsuite` filter,
testsuite/testcase.py lines 33–37): the two test classes and the
imported `QualifierTestCase` base; the `TestCase` namedtuple and the
imported modules are not `unittest.TestCase` subclasses. -/
def isTestCaseSubclass (n : String) : Bool :=
  n == "Part001_BasicRequirements" ||
  n == "Part002_AdvancedRequirements" ||
  n == "QualifierTestCase"

/-- `unittest.TestLoader.getTestCaseNames` as configured by
`load_testsuite` (testsuite/testcase.py lines 29–30): the class's
attribute names in `dir` order, filtered to test methods; with
`sortTestMethodsUsing = None` no further sort is applied. -/
def loadedTestMethods (attrs : List String) : List String :=
  (dirOrder attrs).filter isTestMethod

/-- The class traversal of `load_testsuite` (testsuite/testcase.py lines
33–37): module attribute names in `dir` order, filtered to
`unittest.TestCase` subclasses. -/
def loadedClassOrder : List String :=
  (dirOrder testModuleAttrs).filter isTestCaseSubclass

/-- The fixture inputs probed by each test method of each class, in
tuple order, read off the fixture tables; `QualifierTestCase` has no
test method and contributes nothing. -/
def classMethodInputs (cls m : String) : List String :=
  if cls == "Part001_BasicRequirements" then
    if m == "test_001_accepts_valid_date_only_strings" then
      part001DateOnlyFixtures.map Prod.fst
    else if m == "test_002_accepts_valid_datetime_strings" then
      part001DatetimeFixtures.map Prod.fst
    else if m == "test_003_rejects_invalid_datetime_stings" then
      rejectionFixtures
    else []
  else if cls == "Part002_AdvancedRequirements" then
    if m == "test_001_accepts_valid_date_only_strings" then
      part002DateOnlyFixtures.map Prod.fst
    else []
  else []

/-- The attribute-name list of each fixture-bearing class. -/
def classAttrs (cls : String) : List String :=
  if cls == "Part001_BasicRequirements" then part001Attrs
  else if cls == "Part002_AdvancedRequirements" then part002Attrs
  else []

/-- The sequence of fixture inputs the loaded suite evaluates: classes
in `load_testsuite`'s traversal order, test methods in the loader's
order, fixtures in tuple order. -/
def loadedSuiteInputs : List String :=
  (loadedClassOrder.map
    (fun c => ((loadedTestMethods (classAttrs c)).map
      (classMethodInputs c)).flatten)).flatten

/-- The same sequence in pure declaration order: `Part001` before
`Part002` as declared in `test_qualifier.py`, its three test methods in
declaration order, fixtures in tuple order. -/
def declaredSuiteInputs : List String :=
  part001DateOnlyFixtures.map Prod.fst ++
  part001DatetimeFixtures.map Prod.fst ++
  rejectionFixtures ++
  part002DateOnlyFixtures.map Prod.fst

/-- Python truthiness of the `module_to_test` attribute as tested by
`if not cls.module_to_test:` — `None` and the empty string are falsy,
every other string is truthy. -/
def pyTruthy : Option String → Bool
  | none => false
  | some s => !(s == "")

/-- `QualifierTestCase.setUpClass` (testsuite/testcase.py lines 11–17),
inherited by `Part001_BasicRequirements`: when `module_to_test` is
falsy it is replaced by the hard-coded default `"qualifier_"`, and the
resulting name is the module imported. -/
def qualifierTestCaseModule (module_to_test : Option String) : String :=
  if pyTruthy module_to_test then module_to_test.getD "" else "qualifier_"

/-- `Part002_AdvancedRequirements.setUpClass` (test_qualifier.py lines
157–164): when `module_to_test` is falsy it is replaced by the
hard-coded default `"qualifier"`, and the resulting name is the module
imported. -/
def part002Module (module_to_test : Option String) : String :=
  if pyTruthy module_to_test then module_to_test.getD "" else "qualifier"

/-- Module probed by `Part001_BasicRequirements` in a suite built by
`load_testsuite filename`: line 36 of testsuite/testcase.py assigns
`module_to_test = filename` to every `unittest.TestCase` subclass
before any test runs. -/
def probedModulePart001 (filename : String) : String :=
  qualifierTestCaseModule (some filename)

/-- Module probed by `Part002_AdvancedRequirements` in a suite built by
`load_testsuite filename`. -/
def probedModulePart002 (filename : String) : String :=
  part002Module (some filename)

/-- Number of individual fixtures of a section that passed: the
sub-tests whose recorded outcome is `none`, over all test methods. -/
def fixturesPassed (methods : List (List (Option TestOutcome))) : Nat :=
  methods.flatten.countP (fun o => o.isNone)

/-- Number of individual fixtures of a section that failed. -/
def fixturesFailed (methods : List (List (Option TestOutcome))) : Nat :=
  methods.flatten.countP (fun o => o.isSome)

/-- C1: the claim says every string in the rejection fixture list of
`test_003` is not a valid instance of the accepted grammar.  The code
violates this: `"2001-02-28"` is in the list, yet it is a lexically
well-formed date that is calendrically possible (February has 28 days
in every year), so the spec-modelled parser accepts it; it is the only
such string in the list.  The adjacent source comment "2001 is not a
leap year" shows `"2001-02-29"` was intended. -/
theorem c1_rejection_fixture_contains_valid_date :
    "2001-02-28" ∈ rejectionFixtures ∧
    parse_iso8601 "2001-02-28" = some ⟨2001, 2, 28, 0, 0, 0⟩ ∧
    rejectionFixtures.filter (fun s => (parse_iso8601 s).isSome) =
      ["2001-02-28"] := by
  decide

/-- C2: an acceptance fixture is recorded as passed iff the candidate's
call returns a datetime that is field-for-field equal to the expected
value and carries no timezone information; an exception, a non-datetime
result, a wrong field, or attached zone info is recorded as that
fixture's failure. -/
theorem c2_acceptance_pass_iff_exact_naive_datetime
    (expected : CivilDateTime) (r : CallResult) :
    acceptancePasses expected r = true ↔
      r = CallResult.returns (PyValue.datetime expected none) := by
  cases r with
  | returns v =>
    cases v with
    | datetime dt tz =>
      cases tz with
      | none => simp [acceptancePasses]
      | some z => simp [acceptancePasses]
    | other => simp [acceptancePasses]
  | raises b => simp [acceptancePasses]

/-- C3, counterexample: the claim says a rejection fixture passes iff
the parser signals rejection by any host-language mechanism.  A parser
that signals rejection by raising an exception other than `ValueError`
signals rejection in the claim's sense, yet `assertRaises(ValueError)`
does not catch it and the fixture is recorded as failed. -/
theorem c3_counterexample_non_valueerror_rejection :
    signalsRejection (CallResult.raises false) = true ∧
    rejectionPasses (CallResult.raises false) = false ∧
    signalsRejection (CallResult.returns PyValue.other) = true ∧
    rejectionPasses (CallResult.returns PyValue.other) = false := by
  decide

/-- C3, amended: a rejection fixture is recorded as passed iff the
candidate's call raises specifically a `ValueError`; returning any
value (including an error sentinel such as `None`) or raising any other
exception type is recorded as that fixture's failure. -/
theorem c3_rejection_pass_iff_valueerror (r : CallResult) :
    rejectionPasses r = true ↔ r = CallResult.raises true := by
  cases r with
  | returns v => simp [rejectionPasses]
  | raises b => cases b <;> simp [rejectionPasses]

/-- C4: each fixture is evaluated inside its own `subTest`; when
evaluating one fixture raises an exception — in the acceptance loop any
exception at all, in the rejection loop any exception outside the
`ValueError` rejection channel — that fixture alone is recorded as
failed, the fixtures before it keep their outcomes, and every fixture
after it is still evaluated exactly as it would have been. -/
theorem c4_fixture_failure_is_isolated (parser : String → CallResult)
    (pre post : List (String × CivilDateTime)) (fx : String × CivilDateTime)
    (pre2 post2 : List String) (s : String) (e : Bool)
    (h1 : parser fx.1 = CallResult.raises e)
    (h2 : parser s = CallResult.raises false) :
    runTestCases parser (pre ++ fx :: post) =
      runTestCases parser pre ++ false :: runTestCases parser post ∧
    runRejectionCases parser (pre2 ++ s :: post2) =
      runRejectionCases parser pre2 ++ false :: runRejectionCases parser post2 := by
  constructor
  · simp [runTestCases, evalAcceptanceFixture, h1, acceptancePasses]
  · simp [runRejectionCases, h2, rejectionPasses]

/-- Witness for C4 at a concrete parser that raises a `TypeError`-like
exception on every input. -/
theorem c4_fixture_failure_is_isolated_witness :
    runTestCases (fun _ => CallResult.raises false)
        ([("1583-01-01", ⟨1583, 1, 1, 0, 0, 0⟩)] ++
          ("2000-02-29", ⟨2000, 2, 29, 0, 0, 0⟩) ::
          [("2020-01-10", ⟨2020, 1, 10, 0, 0, 0⟩)]) =
      runTestCases (fun _ => CallResult.raises false)
          [("1583-01-01", ⟨1583, 1, 1, 0, 0, 0⟩)] ++
        false :: runTestCases (fun _ => CallResult.raises false)
          [("2020-01-10", ⟨2020, 1, 10, 0, 0, 0⟩)] ∧
    runRejectionCases (fun _ => CallResult.raises false)
        (["1989-13-01"] ++ "2012/10/02" :: ["90-03-14"]) =
      runRejectionCases (fun _ => CallResult.raises false) ["1989-13-01"] ++
        false :: runRejectionCases (fun _ => CallResult.raises false)
          ["90-03-14"] :=
  c4_fixture_failure_is_isolated (fun _ => CallResult.raises false)
    [("1583-01-01", ⟨1583, 1, 1, 0, 0, 0⟩)]
    [("2020-01-10", ⟨2020, 1, 10, 0, 0, 0⟩)]
    ("2000-02-29", ⟨2000, 2, 29, 0, 0, 0⟩)
    ["1989-13-01"] ["90-03-14"] "2012/10/02" false rfl rfl

/-- C5: every acceptance fixture of the suite — the date-only and
datetime tables of the basic tier and the date-only table of the
advanced tier — expects exactly the civil date-time denoted by its
input string, with every time field absent from the input set to 0. -/
theorem c5_expected_values_denote_inputs (fx : String × CivilDateTime)
    (h : fx ∈ part001DateOnlyFixtures ++ part001DatetimeFixtures ++
      part002DateOnlyFixtures) :
    parse_iso8601 fx.1 = some fx.2 := by
  fin_cases h <;> decide

/-- Witness for C5 at the date-only fixture `"9999-12-31"`. -/
theorem c5_expected_values_denote_inputs_witness :
    parse_iso8601 "9999-12-31" = some ⟨9999, 12, 31, 0, 0, 0⟩ :=
  c5_expected_values_denote_inputs ("9999-12-31", ⟨9999, 12, 31, 0, 0, 0⟩)
    (by decide)



/-- The error list accumulated by feeding a method's sub-test outcomes
through `addSubTest` is exactly the list of its failure payloads. -/
theorem runMethod_fold_snd (outcomes : List (Option TestOutcome))
    (s : SectionResults) (acc : List TestOutcome) :
    (outcomes.foldl (fun a o => addSubTest o a.1 a.2) (s, acc)).2 =
      acc ++ outcomes.filterMap id := by
  induction outcomes generalizing s acc with
  | nil => simp
  | cons o os ih =>
    cases o with
    | none =>
      have h1 : addSubTest none (s, acc).1 (s, acc).2 =
          ({ s with passed := s.passed + 1 }, acc) := rfl
      rw [List.foldl_cons, h1, ih]
      simp
    | some e =>
      have h1 : addSubTest (some e) (s, acc).1 (s, acc).2 =
          ({ s with failed := s.failed + 1 }, acc ++ [e]) := rfl
      rw [List.foldl_cons, h1, ih]
      simp

/-- `subtest_outcomes` after a method ran is the list of its failures. -/
theorem runMethod_snd_eq (outcomes : List (Option TestOutcome)) :
    (runMethod outcomes).2 = outcomes.filterMap id := by
  simpa using runMethod_fold_snd outcomes ⟨0, 0⟩ []

/-- A method's `subtest_outcomes` list stays empty iff every one of its
fixtures passed. -/
theorem runMethod_snd_eq_nil_iff (outcomes : List (Option TestOutcome)) :
    (runMethod outcomes).2 = [] ↔ ∀ o ∈ outcomes, o = none := by
  rw [runMethod_snd_eq]
  simp [List.filterMap_eq_nil_iff]

/-- Folding `stopTest` over a section's methods counts the methods
whose sub-test error list stayed empty into `passed`. -/
theorem runSection_fold_passed (methods : List (List (Option TestOutcome)))
    (g : SectionResults) :
    (methods.foldl (fun g m => stopTest (runMethod m).2 g) g).passed =
      g.passed + methods.countP (fun m => (runMethod m).2.isEmpty) := by
  induction methods generalizing g with
  | nil => simp
  | cons m ms ih =>
    simp only [List.foldl_cons, List.countP_cons]
    cases h : (runMethod m).2.isEmpty with
    | true =>
      have h1 : stopTest (runMethod m).2 g = { g with passed := g.passed + 1 } := by
        simp [stopTest, h]
      rw [h1, ih]
      simp [h]
      omega
    | false =>
      have h1 : stopTest (runMethod m).2 g = { g with failed := g.failed + 1 } := by
        simp [stopTest, h]
      rw [h1, ih]
      simp [h]

/-- Folding `stopTest` over a section's methods counts the methods with
a nonempty sub-test error list into `failed`. -/
theorem runSection_fold_failed (methods : List (List (Option TestOutcome)))
    (g : SectionResults) :
    (methods.foldl (fun g m => stopTest (runMethod m).2 g) g).failed =
      g.failed + methods.countP (fun m => !(runMethod m).2.isEmpty) := by
  induction methods generalizing g with
  | nil => simp
  | cons m ms ih =>
    simp only [List.foldl_cons, List.countP_cons]
    cases h : (runMethod m).2.isEmpty with
    | true =>
      have h1 : stopTest (runMethod m).2 g = { g with passed := g.passed + 1 } := by
        simp [stopTest, h]
      rw [h1, ih]
      simp [h]
    | false =>
      have h1 : stopTest (runMethod m).2 g = { g with failed := g.failed + 1 } := by
        simp [stopTest, h]
      rw [h1, ih]
      simp [h]
      omega

/-- C6, counterexample: the claim says the per-group counters exposed
by the Verifier count fixtures.  They count test methods: a section
with one test method of two passing fixtures exposes `passed = 1`,
while two of its fixtures passed. -/
theorem c6_counterexample_counts_methods_not_fixtures :
    (runSection [[none, none]]).passed = 1 ∧
    fixturesPassed [[none, none]] = 2 ∧
    (runSection [[none, none]]).passed ≠ fixturesPassed [[none, none]] := by
  decide

/-- C6, amended: the per-group counters count test methods, with
`passed + failed` equal to the number of methods in the group; the
footer reports the group as PASS exactly when every fixture of every
method in the group passed, and as FAIL exactly when at least one
fixture in the group failed. -/
theorem c6_section_counts_and_verdict
    (methods : List (List (Option TestOutcome))) :
    (runSection methods).passed + (runSection methods).failed =
      methods.length ∧
    (footerPasses (runSection methods) = true ↔
      ∀ m ∈ methods, ∀ o ∈ m, o = none) ∧
    (footerPasses (runSection methods) = false ↔
      ∃ m ∈ methods, ∃ o ∈ m, o ≠ none) := by
  have hp : (runSection methods).passed =
      methods.countP (fun m => (runMethod m).2.isEmpty) := by
    simpa [runSection] using runSection_fold_passed methods ⟨0, 0⟩
  have hf : (runSection methods).failed =
      methods.countP (fun m => !(runMethod m).2.isEmpty) := by
    simpa [runSection] using runSection_fold_failed methods ⟨0, 0⟩
  have hlen : ∀ ms : List (List (Option TestOutcome)),
      ms.countP (fun m => (runMethod m).2.isEmpty) +
      ms.countP (fun m => !(runMethod m).2.isEmpty) = ms.length := by
    intro ms
    induction ms with
    | nil => rfl
    | cons m tl ih =>
      simp only [List.countP_cons, List.length_cons]
      cases h : (runMethod m).2.isEmpty <;> simp [h] <;> omega
  have hpass : footerPasses (runSection methods) = true ↔
      ∀ m ∈ methods, ∀ o ∈ m, o = none := by
    have h0 : footerPasses (runSection methods) = true ↔
        (runSection methods).failed = 0 := by
      simp only [footerPasses, SectionResults.total, beq_iff_eq]
      omega
    rw [h0, hf, List.countP_eq_zero]
    constructor
    · intro h m hm
      have h2 := h m hm
      have h3 : (runMethod m).2.isEmpty = true := by
        cases hb : (runMethod m).2.isEmpty with
        | true => rfl
        | false => exact absurd (by simp [hb]) h2
      exact (runMethod_snd_eq_nil_iff m).mp (List.isEmpty_iff.mp h3)
    · intro h m hm
      have h2 : (runMethod m).2 = [] := (runMethod_snd_eq_nil_iff m).mpr (h m hm)
      simp [h2]
  refine ⟨by rw [hp, hf]; exact hlen methods, hpass, ?_⟩
  rw [show (footerPasses (runSection methods) = false) ↔
      ¬(footerPasses (runSection methods) = true) by simp]
  rw [hpass]
  push_neg
  rfl

/-- C7: the advanced tier's fixture list is identical, pair for pair
and in order, to the basic tier's date-only fixture list, and the
advanced tier's loaded test methods contribute exactly that one
fixture list and nothing else. -/
theorem c7_advanced_tier_duplicates_basic :
    part002DateOnlyFixtures = part001DateOnlyFixtures ∧
    (loadedTestMethods part002Attrs).map
        (classMethodInputs "Part002_AdvancedRequirements") =
      [part001DateOnlyFixtures.map Prod.fst] := by
  decide

/-- C8: the loader's test-method order (attribute names in `dir` order,
filtered to the `test` prefix, with `sortTestMethodsUsing = None`
applying no further sort) coincides with the declaration order of the
test methods of both classes, and the resulting sequence of fixture
evaluations of the whole loaded suite equals the declaration
sequence — classes, methods and fixture tuples all in source order. -/
theorem c8_fixture_sequence_is_declaration_sequence :
    loadedTestMethods part001Attrs = part001Attrs.filter isTestMethod ∧
    loadedTestMethods part002Attrs = part002Attrs.filter isTestMethod ∧
    loadedSuiteInputs = declaredSuiteInputs := by
  decide

/-- C9: for every `SectionResults` value the invariant
`total = passed + failed` holds, iteration yields exactly the triple
`(passed, failed, passed + failed)`, and each recording operation —
`addSubTest` for a sub-test outcome, `stopTest` for a whole test —
increments exactly one of the two counters by exactly one. -/
theorem c9_section_results_invariants (s g : SectionResults)
    (o : Option TestOutcome) (ol os : List TestOutcome) :
    s.total = s.passed + s.failed ∧
    s.iter = (s.passed, s.failed, s.passed + s.failed) ∧
    (((addSubTest o s ol).1.passed = s.passed + 1 ∧
      (addSubTest o s ol).1.failed = s.failed) ∨
     ((addSubTest o s ol).1.passed = s.passed ∧
      (addSubTest o s ol).1.failed = s.failed + 1)) ∧
    (((stopTest os g).passed = g.passed + 1 ∧
      (stopTest os g).failed = g.failed) ∨
     ((stopTest os g).passed = g.passed ∧
      (stopTest os g).failed = g.failed + 1)) := by
  refine ⟨rfl, rfl, ?_, ?_⟩
  · cases o with
    | none => exact Or.inl ⟨rfl, rfl⟩
    | some e => exact Or.inr ⟨rfl, rfl⟩
  · cases os with
    | nil => exact Or.inl ⟨rfl, rfl⟩
    | cons a as => exact Or.inr ⟨rfl, rfl⟩

/-- C10, counterexample: the claim quantifies over any suite built by
`load_testsuite`.  For the empty filename the assigned
`module_to_test = ""` is falsy in Python, so each class's `setUpClass`
falls back to its own hard-coded default and the two tiers probe
different modules, neither of them named by the filename argument. -/
theorem c10_counterexample_empty_filename :
    probedModulePart001 "" = "qualifier_" ∧
    probedModulePart002 "" = "qualifier" ∧
    probedModulePart001 "" ≠ probedModulePart002 "" ∧
    probedModulePart001 "" ≠ "" := by
  decide

/-- C10, amended: for every non-empty filename, `load_testsuite`'s
assignment `module_to_test = filename` makes both requirement tiers
probe the module named by the filename argument; the differing
hard-coded defaults `"qualifier_"` and `"qualifier"` take effect only
when a class is set up with `module_to_test` unset (or empty), i.e.
without going through `load_testsuite`. -/
theorem c10_both_tiers_probe_filename (filename : String)
    (h : filename ≠ "") :
    probedModulePart001 filename = filename ∧
    probedModulePart002 filename = filename ∧
    qualifierTestCaseModule none = "qualifier_" ∧
    part002Module none = "qualifier" := by
  have ht : pyTruthy (some filename) = true := by
    simp [pyTruthy, h]
  refine ⟨?_, ?_, rfl, rfl⟩
  · simp [probedModulePart001, qualifierTestCaseModule, ht]
  · simp [probedModulePart002, part002Module, ht]

/-- Witness for C10 at the default filename `"qualifier"`. -/
theorem c10_both_tiers_probe_filename_witness :
    probedModulePart001 "qualifier" = "qualifier" ∧
    probedModulePart002 "qualifier" = "qualifier" ∧
    qualifierTestCaseModule none = "qualifier_" ∧
    part002Module none = "qualifier" :=
  c10_both_tiers_probe_filename "qualifier" (by decide)
